import Mathlib

/-!
Verification of the tagged-error library: a shallow embedding of the
TaggedError class of src/index.ts (the current variant, the one exercised by
the test suite src/index.test.ts) and of the divideAndSquareRoot example
function, together with theorems about the construction,
property-visibility and serialization contract.

The embedded constructor is

  constructor(tag, options?)
    super(options?.message, (object literal with single key cause, holding
                             options?.cause))
    this.tag = tag

with tag declared as a readonly enumerable field, cause and message as
non-enumerable properties installed by the Error base constructor, and name
as a non-enumerable prototype getter returning the text TaggedError(tag).

The model tracks exactly what the ECMAScript semantics of this code
produces: the own properties of the instance (key, value, enumerability
flag, in creation order) and its prototype chain.  The Error base
constructor installs an own non-enumerable message property only when the
message argument is not undefined, and — because the object literal passed
as its second argument always carries a cause key, so that the
InstallErrorCause step finds the key present — always installs an own
non-enumerable cause property whose value is the evaluated options?.cause.
The host also installs a non-enumerable stack property with host-defined
text, which the model keeps as an explicit parameter so every theorem is
quantified over its contents.  Finally this.tag = tag creates an own
enumerable tag property.  name is a getter on the prototype, never an own
property of the instance.
-/

/-- JavaScript values, as far as the data flows of this library need them:
undefined, null, booleans, numbers (modelled as rationals; every number
appearing in the code and tests of the repository is exactly
representable), strings, and plain objects as ordered field lists. -/
inductive JSValue where
  | undefined : JSValue
  | null : JSValue
  | bool : Bool → JSValue
  | num : ℚ → JSValue
  | str : String → JSValue
  | obj : List (String × JSValue) → JSValue

/-- Whether a value is the JavaScript undefined. -/
def JSValue.isUndefined : JSValue → Bool
  | .undefined => true
  | _ => false

/-- A field of a caller-supplied options object.  JavaScript distinguishes a
key that is missing from a key that is present with value undefined; the
embedding keeps that distinction so the claims about it can be stated. -/
inductive OptField (α : Type) where
  | absent : OptField α
  | given : α → OptField α

/-- The TaggedErrorOptions interface of src/index.ts: an object with
optional message and cause keys. -/
structure TaggedErrorOptions where
  message : OptField String
  cause : OptField JSValue

/-- One own property of a constructed instance: its key, its value, and its
enumerability flag. -/
structure OwnProp where
  key : String
  value : JSValue
  enumerable : Bool

/-- A constructed TaggedError instance: its own properties in creation
order, and the names of the constructors on its prototype chain. -/
structure TaggedErrorInstance where
  ownProps : List OwnProp
  protoChain : List String

/-- The expression options?.message — the message argument handed to the
Error base constructor; none plays the role of undefined. -/
def optMessage : Option TaggedErrorOptions → Option String
  | none => none
  | some o =>
    match o.message with
    | .absent => none
    | .given m => some m

/-- The expression options?.cause — the value stored under the cause key of
the object literal handed to the Error base constructor.  A missing options
bundle and a missing cause key both evaluate to undefined. -/
def optCause : Option TaggedErrorOptions → JSValue
  | none => .undefined
  | some o =>
    match o.cause with
    | .absent => .undefined
    | .given v => v

/-- Own properties installed by the super call: a non-enumerable message
property only when the message argument is not undefined; a non-enumerable
cause property always, because the object literal always has the cause key;
and the non-enumerable stack property of the host, whose text is
host-defined and therefore a parameter. -/
def errorBaseProps (msg : Option String) (causeVal : JSValue)
    (stack : String) : List OwnProp :=
  (match msg with
    | some m => [⟨"message", .str m, false⟩]
    | none => []) ++
  [⟨"cause", causeVal, false⟩, ⟨"stack", .str stack, false⟩]

/-- The TaggedError constructor: the super call installs the base-error
properties, then the assignment to this.tag creates the own enumerable tag
property.  The prototype chain comes from extending Error. -/
def construct (tag : String) (options : Option TaggedErrorOptions)
    (stack : String) : TaggedErrorInstance :=
  { ownProps :=
      errorBaseProps (optMessage options) (optCause options) stack ++
        [⟨"tag", .str tag, true⟩],
    protoChain := ["TaggedError", "Error", "Object"] }

/-- Own-property lookup, as in Object.getOwnPropertyDescriptor. -/
def getOwn (e : TaggedErrorInstance) (k : String) : Option OwnProp :=
  e.ownProps.find? (fun p => p.key == k)

/-- Whether the instance has an own cause property, as in
Object.hasOwn(e, "cause"). -/
def hasOwnCause (e : TaggedErrorInstance) : Bool :=
  (getOwn e "cause").isSome

/-- Reading e.tag: the own property when present, else undefined, since
nothing on the prototype chain defines tag. -/
def readTag (e : TaggedErrorInstance) : JSValue :=
  match getOwn e "tag" with
  | some p => p.value
  | none => .undefined

/-- Reading e.message: the own property when present, else the inherited
Error.prototype.message, which is the empty string. -/
def readMessage (e : TaggedErrorInstance) : JSValue :=
  match getOwn e "message" with
  | some p => p.value
  | none => .str ""

/-- Reading e.cause: the own property when present, else undefined, since
nothing on the prototype chain defines cause. -/
def readCause (e : TaggedErrorInstance) : JSValue :=
  match getOwn e "cause" with
  | some p => p.value
  | none => .undefined

/-- The string held by the own tag property.  The constructor always stores
a string there, matching the class type parameter Tag extends string. -/
def tagString (e : TaggedErrorInstance) : String :=
  match getOwn e "tag" with
  | some ⟨_, .str s, _⟩ => s
  | _ => ""

/-- Reading e.name: the prototype getter, which interpolates the
always-string tag into the text TaggedError(tag). -/
def readName (e : TaggedErrorInstance) : JSValue :=
  .str ("TaggedError(" ++ tagString e ++ ")")

/-- The field list JSON.stringify emits for the instance: its own
enumerable string-keyed properties, in order, skipping properties whose
value is undefined, which JSON.stringify omits. -/
def jsonFields (e : TaggedErrorInstance) : List (String × JSValue) :=
  (e.ownProps.filter (fun p => p.enumerable && !p.value.isUndefined)).map
    (fun p => (p.key, p.value))

/-- The instanceof Error test: whether Error.prototype occurs on the
prototype chain of the instance. -/
def instanceofError (e : TaggedErrorInstance) : Bool :=
  e.protoChain.contains "Error"

/-- The instanceof TaggedError test. -/
def instanceofTaggedError (e : TaggedErrorInstance) : Bool :=
  e.protoChain.contains "TaggedError"

/-- Math.sqrt modelled on rationals: exact on perfect-square rationals, the
only inputs the repository exercises; on other inputs it returns the
rational built from the integer square roots of numerator and denominator,
standing in for the floating-point approximation of the host. -/
def mathSqrt (q : ℚ) : ℚ :=
  (Nat.sqrt q.num.toNat : ℚ) / (Nat.sqrt q.den : ℚ)

/-- Result of the example function: either a number or a TaggedError
instance, mirroring the untagged union return type in src/index.test.ts. -/
inductive DivResult where
  | val : ℚ → DivResult
  | err : TaggedErrorInstance → DivResult

/-- The divideAndSquareRoot example function of src/index.test.ts: divide,
then take the square root, returning a TaggedError value on a zero divisor
or a negative quotient. -/
def divideAndSquareRoot (num divisor : ℚ) : DivResult :=
  if divisor = 0 then
    .err (construct "DIVISOR_IS_ZERO"
      (some ⟨.given "Cannot divide by zero", .absent⟩) "")
  else
    let result := num / divisor
    if result < 0 then
      .err (construct "NEGATIVE_RESULT"
        (some ⟨.given "Cannot calculate square root of negative number",
               .given (.obj [("value", .num result)])⟩) "")
    else
      .val (mathSqrt result)

/-- Field lookup on a plain object value. -/
def objGet : JSValue → String → Option JSValue
  | .obj fields, k => (fields.find? (fun f => f.1 == k)).map (fun f => f.2)
  | _, _ => none

/-- The tag of the error held by a result, when the result is an error. -/
def resultErrTag : DivResult → Option JSValue
  | .err e => some (readTag e)
  | .val _ => none

/-- The message of the error held by a result, when it is an error. -/
def resultErrMessage : DivResult → Option JSValue
  | .err e => some (readMessage e)
  | .val _ => none

/-- The value field of the cause of the error held by a result. -/
def resultErrCauseValue : DivResult → Option JSValue
  | .err e => objGet (readCause e) "value"
  | .val _ => none

example : readTag (construct "T" none "") = .str "T" := rfl
example : readMessage (construct "T" none "") = .str "" := rfl
example : readCause (construct "T" none "") = .undefined := rfl
example : readName (construct "T" none "") = .str "TaggedError(T)" := rfl
example : jsonFields (construct "T" (some ⟨.given "hello", .given (.num 1)⟩) "st")
    = [("tag", .str "T")] := rfl
example : hasOwnCause (construct "T" none "") = true := rfl
example : divideAndSquareRoot 16 4 = .val 2 := by
  show (if (4:ℚ) = 0 then _ else _) = _
  norm_num [mathSqrt]
  rw [show Int.toNat 4 = 4 from rfl, show Nat.sqrt 4 = 2 from Nat.sqrt_eq 2]
  norm_num

/-- C1: for every constructed TaggedError instance, whatever the message and
cause supplied at construction (and whatever stack text the host records),
JSON serialization yields a document with exactly one key, tag, mapped to
the construction tag; message, cause and name never appear — name is not
even an own property of the instance. -/
theorem tagged_error_serializes_only_tag (t : String)
    (o : Option TaggedErrorOptions) (s : String) :
    jsonFields (construct t o s) = [("tag", JSValue.str t)] ∧
    getOwn (construct t o s) "name" = none := by
  cases o with
  | none => exact ⟨rfl, rfl⟩
  | some o =>
    obtain ⟨m, c⟩ := o
    cases m <;> exact ⟨rfl, rfl⟩

/-- C2: for every tag, every message shape and every cause payload c —
including the falsy values 0, the empty string, false and null —
constructing with the cause key explicitly present yields an instance whose
cause reads back as exactly c, uncoerced, and which owns a cause property
rather than treating the cause as absent. -/
theorem tagged_error_falsy_cause_preserved (t : String) (m : OptField String)
    (c : JSValue) (s : String) :
    readCause (construct t (some ⟨m, .given c⟩) s) = c ∧
    hasOwnCause (construct t (some ⟨m, .given c⟩) s) = true ∧
    readCause (construct t (some ⟨m, .given (.num 0)⟩) s) = .num 0 ∧
    readCause (construct t (some ⟨m, .given (.str "")⟩) s) = .str "" ∧
    readCause (construct t (some ⟨m, .given (.bool false)⟩) s) = .bool false ∧
    readCause (construct t (some ⟨m, .given .null⟩) s) = .null := by
  cases m <;> exact ⟨rfl, rfl, rfl, rfl, rfl, rfl⟩

/-- C3: for every tag string t, construction with no options yields tag t,
an empty message, a cause that reads as the absent marker undefined, and
the name TaggedError(t) with the tag enclosed in bare parentheses, no quote
characters around it. -/
theorem tagged_error_default_construction (t s : String) :
    readTag (construct t none s) = .str t ∧
    readMessage (construct t none s) = .str "" ∧
    readCause (construct t none s) = .undefined ∧
    readName (construct t none s) = .str ("TaggedError(" ++ t ++ ")") :=
  ⟨rfl, rfl, rfl, rfl⟩

/-- C4: omitting the cause key entirely — with no options bundle or with an
empty one — and passing cause explicitly as undefined are indistinguishable
to a reader: all three constructions read cause as undefined, and the
latter two produce structurally identical instances. -/
theorem tagged_error_cause_omitted_vs_undefined (t s : String) :
    readCause (construct t none s) = .undefined ∧
    readCause (construct t (some ⟨.absent, .absent⟩) s) = .undefined ∧
    readCause (construct t (some ⟨.absent, .given .undefined⟩) s) =
      .undefined ∧
    construct t (some ⟨.absent, .absent⟩) s =
      construct t (some ⟨.absent, .given .undefined⟩) s :=
  ⟨rfl, rfl, rfl, rfl⟩

/-- C5, counterexample: the constructor does not store a cause exactly when
the caller supplied a cause key.  At the concrete input tag "T" with no
options at all, the constructed instance nevertheless owns a cause
property, and reading cause yields the same undefined an explicitly
supplied undefined cause yields, so key presence is not distinguished from
the value being undefined. -/
theorem tagged_error_cause_key_presence_counterexample :
    hasOwnCause (construct "T" none "") = true ∧
    readCause (construct "T" none "") =
      readCause (construct "T" (some ⟨.absent, .given .undefined⟩) "") :=
  ⟨rfl, rfl⟩

/-- C5, amended: the constructor always installs an own non-enumerable
cause property, whatever the options shape; its value is exactly the
evaluated cause option — the supplied value when the key is present, else
undefined — so explicitly supplied causes, falsy ones included, read back
exactly, while a missing key and an explicit undefined are
indistinguishable. -/
theorem tagged_error_cause_always_installed (t : String)
    (o : Option TaggedErrorOptions) (s : String) :
    hasOwnCause (construct t o s) = true ∧
    readCause (construct t o s) = optCause o ∧
    (getOwn (construct t o s) "cause").map OwnProp.enumerable = some false := by
  cases o with
  | none => exact ⟨rfl, rfl, rfl⟩
  | some o =>
    obtain ⟨m, c⟩ := o
    cases m <;> exact ⟨rfl, rfl, rfl⟩

/-- C6: the constructor creates the own tag property exactly once, whatever
the options shape, and the instance afterwards reads tag as exactly the
string passed to the constructor; the class declares the field readonly and
defines no operation that writes it after construction. -/
theorem tagged_error_tag_assigned_once (t : String)
    (o : Option TaggedErrorOptions) (s : String) :
    ((construct t o s).ownProps.filter (fun p => p.key == "tag")).length
      = 1 ∧
    readTag (construct t o s) = .str t := by
  cases o with
  | none => exact ⟨rfl, rfl⟩
  | some o =>
    obtain ⟨m, c⟩ := o
    cases m <;> exact ⟨rfl, rfl⟩

/-- C7: construction succeeds on every tag and every shape of the options
argument — absent, empty, message only, cause only, or both — always
producing a well-formed error instance carrying the tag; the constructor is
a total function with no validation and no failing branch. -/
theorem tagged_error_construction_total (t m s : String) (c : JSValue)
    (o : Option TaggedErrorOptions) :
    readTag (construct t none s) = .str t ∧
    readTag (construct t (some ⟨.absent, .absent⟩) s) = .str t ∧
    readTag (construct t (some ⟨.given m, .absent⟩) s) = .str t ∧
    readTag (construct t (some ⟨.absent, .given c⟩) s) = .str t ∧
    readTag (construct t (some ⟨.given m, .given c⟩) s) = .str t ∧
    instanceofError (construct t o s) = true :=
  ⟨rfl, rfl, rfl, rfl, rfl, rfl⟩

/-- C8: every constructed TaggedError instance passes the host language
generic is-an-error check — Error.prototype lies on its prototype chain, as
does TaggedError.prototype — whatever the tag, options and stack. -/
theorem tagged_error_is_error_instance (t : String)
    (o : Option TaggedErrorOptions) (s : String) :
    instanceofError (construct t o s) = true ∧
    instanceofTaggedError (construct t o s) = true :=
  ⟨rfl, rfl⟩

/-- C9: divideAndSquareRoot returns the numeric square root of the quotient
whenever the divisor is nonzero and the quotient non-negative, with the
concrete value 2 at inputs 16 and 4; a DIVISOR_IS_ZERO error with message
"Cannot divide by zero" whenever the divisor is zero; and, at inputs -10
and 1, a NEGATIVE_RESULT error with message "Cannot calculate square root
of negative number" whose cause has value field -10. -/
theorem divide_and_square_root_cases (a b : ℚ) (hb : b ≠ 0)
    (hq : 0 ≤ a / b) :
    divideAndSquareRoot a b = .val (mathSqrt (a / b)) ∧
    divideAndSquareRoot 16 4 = .val 2 ∧
    (∀ x : ℚ,
      resultErrTag (divideAndSquareRoot x 0) =
        some (.str "DIVISOR_IS_ZERO") ∧
      resultErrMessage (divideAndSquareRoot x 0) =
        some (.str "Cannot divide by zero")) ∧
    resultErrTag (divideAndSquareRoot (-10) 1) =
      some (.str "NEGATIVE_RESULT") ∧
    resultErrMessage (divideAndSquareRoot (-10) 1) =
      some (.str "Cannot calculate square root of negative number") ∧
    resultErrCauseValue (divideAndSquareRoot (-10) 1) =
      some (.num (-10)) := by
  have h1 : divideAndSquareRoot (-10) 1 =
      DivResult.err (construct "NEGATIVE_RESULT"
        (some ⟨OptField.given "Cannot calculate square root of negative number",
               OptField.given (JSValue.obj [("value", JSValue.num (-10))])⟩)
        "") := by
    show (if (1:ℚ) = 0 then _ else _) = _
    rw [if_neg (by norm_num : ¬ (1:ℚ) = 0)]
    show (if (-10:ℚ) / 1 < 0 then _ else _) = _
    rw [show ((-10:ℚ) / 1) = -10 from by norm_num,
      if_pos (by norm_num : (-10:ℚ) < 0)]
  refine ⟨?_, ?_, fun x => ⟨rfl, rfl⟩, ?_, ?_, ?_⟩
  · simp only [divideAndSquareRoot, if_neg hb, if_neg (not_lt.mpr hq)]
  · show (if (4:ℚ) = 0 then _ else _) = _
    norm_num [mathSqrt]
    rw [show Int.toNat 4 = 4 from rfl, show Nat.sqrt 4 = 2 from Nat.sqrt_eq 2]
    norm_num
  · rw [h1]; rfl
  · rw [h1]; rfl
  · rw [h1]; rfl

/-- Witness for C9 at the concrete inputs 16 and 4, whose quotient is the
non-negative 4: the function returns its square root. -/
theorem divide_and_square_root_cases_witness :
    divideAndSquareRoot 16 4 = DivResult.val (mathSqrt ((16:ℚ) / 4)) :=
  (divide_and_square_root_cases 16 4 (by norm_num) (by norm_num)).1

/-- C10: every constructed instance carries an own cause property, even
when the constructor was called with no options at all, with an empty
options bundle, or with a message but no cause key: the property exists and
reads as undefined rather than being missing from the instance. -/
theorem tagged_error_own_cause_property_exists (t m s : String) :
    (hasOwnCause (construct t none s) = true ∧
      readCause (construct t none s) = .undefined) ∧
    (hasOwnCause (construct t (some ⟨.absent, .absent⟩) s) = true ∧
      readCause (construct t (some ⟨.absent, .absent⟩) s) = .undefined) ∧
    (hasOwnCause (construct t (some ⟨.given m, .absent⟩) s) = true ∧
      readCause (construct t (some ⟨.given m, .absent⟩) s) = .undefined) :=
  ⟨⟨rfl, rfl⟩, ⟨rfl, rfl⟩, ⟨rfl, rfl⟩⟩
